import Mathlib

/-!
Shallow embedding of the Multi-Agent AI Campaign Planner
(`src/Multi-Agent-AI-Campaign-Planner.ipynb`, `src/Readme.md`).

The program is an AWS Step Functions state machine
`Agent0Step → Agent1Step → … → Agent5Step → NotifySuccess`, where each
`Agent{i}Step` is a Task state invoking Lambda `CampaignAgent{i}` with
`Parameters {"campaign_id.$": "$.campaign_id"}`, a `Retry` block
(`ErrorEquals = [Lambda.ServiceException, Lambda.AWSLambdaException,
Lambda.SdkClientException]`, `IntervalSeconds 2`, `MaxAttempts 3`,
`BackoffRate 2.0`) and a `Catch` block (`States.ALL`, `ResultPath $.error`,
`Next FailureNotify`).  `NotifySuccess` and `FailureNotify` are
`sns:publish` Task states with `End: True` and no Retry/Catch of their own.

The six Lambda handlers (`agent0_code` … `agent5_code` in `src/Readme.md`)
read and write DynamoDB items keyed by the composite key
`(campaign_id, step)` and call external capabilities (S3, Bedrock, Kendra,
SNS).  External capabilities are modelled as per-attempt oracles
(`Caps`): each call either returns a value or raises an error; prompt
strings fed to the generation model are opaque to every claim checked
here, so the generation oracle is indexed by attempt, not by prompt text.
DynamoDB `get_item`/`put_item` are modelled as total reads/updates of a
function table (the code never handles a DynamoDB error distinctly: any
exception would surface through the same re-raise path as any other
capability error).

Per the AWS Step Functions semantics of the `Retry` field, `MaxAttempts`
is the maximum number of *retry* attempts after the initial invocation
(`MaxAttempts 3` allows up to 4 invocations in total), and the wait before
retry `k` (1-based) is `IntervalSeconds * BackoffRate ^ (k - 1)`.
-/

namespace Campaign

/-- An error as Step Functions sees it when a Lambda raises: `Error` is the
error name (for a Python exception, its type name; for an invocation-layer
failure, a code such as `Lambda.ServiceException`), `Cause` is the
human-readable message. -/
structure ErrInfo where
  Error : String
  Cause : String
deriving DecidableEq, Repr

/-- Result of a fallible call: a Python return value or a raised error. -/
inductive Outcome (α : Type) where
  | ok (a : α)
  | err (e : ErrInfo)
deriving DecidableEq, Repr

/-- One SNS publish: `(Subject, Message)`. -/
structure Pub where
  subject : String
  message : String
deriving DecidableEq, Repr

/-- The mutable environment shared by the Lambdas: the DynamoDB table
(composite key `campaign_id`, `step` → item data), the assets S3 bucket
(key → body), and the ordered log of SNS publishes. -/
structure World where
  table : String → String → Option String
  assets : String → Option String
  sns : List Pub

/-- `dynamodb.put_item` on the table with key schema
`(campaign_id HASH, step RANGE)`: overwrites the item at exactly that
composite key. -/
def putItem (cid step data : String) (t : String → String → Option String) :
    String → String → Option String :=
  fun c s => if c = cid ∧ s = step then some data else t c s

/-- `sns.publish`: appends to the publish log. -/
def publish (p : Pub) (w : World) : World :=
  { w with sns := w.sns ++ [p] }

def emptyWorld : World :=
  { table := fun _ _ => none, assets := fun _ => none, sns := [] }

/-- The parsed marketing brief.  Only its `campaign_id` field is observable
to the claims (`brief.get('campaign_id', 'UNKNOWN')` in `agent0_code`);
the rest of the brief feeds prompt text only. -/
structure Brief where
  campaign_id : Option String
deriving DecidableEq, Repr

/-- The Lambda invocation event (a JSON object; absent fields are `none`).
The state machine's `Parameters {"campaign_id.$": "$.campaign_id"}` builds
an event holding only `campaign_id`. -/
structure Event where
  campaign_id : Option String
  brief_bucket : Option String
  brief_key : Option String
  brief : Option Brief
deriving DecidableEq, Repr

/-- A Lambda handler's return value.  Every agent returns
`{"campaign_id": …, <payload field>: …}`; only `campaign_id` is read by
the next state's `Parameters`. -/
structure AgentRet where
  campaign_id : String
  payload : String
deriving DecidableEq, Repr

/-- Per-attempt outcomes of the external capabilities an agent may call:
`s3getBrief` = `s3.get_object` on the brief plus body decode/parse
(agent 0); `generate` = `bedrock.invoke_model` plus response parsing;
`kendra` = `kendra.query` top-excerpt extraction (agent 1); `s3putAsset` =
`s3.put_object` of the content asset (agent 3); `snsPublish` = the
success-path `sns.publish` of agent 5. -/
structure Caps where
  s3getBrief : Outcome Brief
  generate : Outcome String
  kendra : Outcome String
  s3putAsset : Outcome Unit
  snsPublish : Outcome Unit

/-- A Lambda handler: event and world in, updated world and
return-or-raised-error out.  The `Caps` argument fixes this attempt's
external-call outcomes. -/
def AgentFn : Type := Event → Caps → World → World × Outcome AgentRet

/-- The error a boto3 client raises when a DynamoDB key attribute is
`None` (only reachable when an event lacks `campaign_id`, which the state
machine never produces). -/
def noCidErr : ErrInfo := ⟨"ParamValidationError", "campaign_id is None"⟩

/-- Shared tail of `agent0_code` after the brief is obtained:
`campaign_id = brief.get('campaign_id', 'UNKNOWN')`, invoke the model,
store the result under step `input_extracted`, return
`{"campaign_id": campaign_id, "extracted": result}`; any exception is
logged and re-raised. -/
def agent0core (brief : Brief) (c : Caps) (w : World) : World × Outcome AgentRet :=
  let campaign_id := brief.campaign_id.getD "UNKNOWN"
  match c.generate with
  | .err e => (w, .err e)
  | .ok result =>
      ({ w with table := putItem campaign_id "input_extracted" result w.table },
       .ok ⟨campaign_id, result⟩)

/-- `agent0_code` (Input Extractor): if the event carries both
`brief_bucket` and `brief_key`, fetch and parse the brief from S3 (a
failure there re-raises); otherwise use `event.get('brief', {})`. -/
def agent0 : AgentFn := fun ev c w =>
  match ev.brief_bucket, ev.brief_key with
  | some _, some _ =>
      match c.s3getBrief with
      | .err e => (w, .err e)
      | .ok brief => agent0core brief c w
  | _, _ => agent0core (ev.brief.getD ⟨none⟩) c w

/-- `agent1_code` (Business Interpreter): reads `input_extracted`
(defaulting to `{}` when the item is missing), queries Kendra inside an
inner `try/except` that swallows the error, invokes the model, stores the
interpretation under `business_context`.  The stored brief data and the
Kendra excerpt feed only the prompt (opaque here); the audience-nonempty
gate on the Kendra call is therefore immaterial to modelled observables
and the (swallowed) call is kept unconditionally for structure. -/
def agent1 : AgentFn := fun ev c w =>
  match ev.campaign_id with
  | none => (w, .err noCidErr)
  | some campaign_id =>
    let _brief_data := (w.table campaign_id "input_extracted").getD "{}"
    let _kendra_info := match c.kendra with | .ok p => p | .err _ => ""
    match c.generate with
    | .err e => (w, .err e)
    | .ok interpretation_text =>
        ({ w with table := putItem campaign_id "business_context" interpretation_text w.table },
         .ok ⟨campaign_id, interpretation_text⟩)

/-- `agent2_code` (Campaign Planner): reads `business_context` and
`input_extracted` (both defaulting to empty when missing), invokes the
model, stores the plan under `campaign_plan`. -/
def agent2 : AgentFn := fun ev c w =>
  match ev.campaign_id with
  | none => (w, .err noCidErr)
  | some campaign_id =>
    let _interpretation := (w.table campaign_id "business_context").getD ""
    let _brief_data := (w.table campaign_id "input_extracted").getD "{}"
    match c.generate with
    | .err e => (w, .err e)
    | .ok plan_text =>
        ({ w with table := putItem campaign_id "campaign_plan" plan_text w.table },
         .ok ⟨campaign_id, plan_text⟩)

/-- `agent3_code` (Content Generator): reads `campaign_plan` and
`input_extracted`, invokes the model, stores the content under
`content_samples` in DynamoDB, and *then* writes the asset to S3 under key
`{campaign_id}_content.txt`; an S3 failure re-raises after the DynamoDB
write has already happened. -/
def agent3 : AgentFn := fun ev c w =>
  match ev.campaign_id with
  | none => (w, .err noCidErr)
  | some campaign_id =>
    let _plan_text := (w.table campaign_id "campaign_plan").getD ""
    let _brief_data := (w.table campaign_id "input_extracted").getD "{}"
    match c.generate with
    | .err e => (w, .err e)
    | .ok content =>
      let w1 := { w with table := putItem campaign_id "content_samples" content w.table }
      match c.s3putAsset with
      | .err e => (w1, .err e)
      | .ok _ =>
          ({ w1 with assets := fun k =>
              if k = campaign_id ++ "_content.txt" then some content else w1.assets k },
           .ok ⟨campaign_id, content⟩)

/-- `agent4_code` (Channel Strategist): reads `campaign_plan` and
`input_extracted`, invokes the model, stores the strategy under
`channel_strategy`. -/
def agent4 : AgentFn := fun ev c w =>
  match ev.campaign_id with
  | none => (w, .err noCidErr)
  | some campaign_id =>
    let _plan := (w.table campaign_id "campaign_plan").getD ""
    let _brief_data := (w.table campaign_id "input_extracted").getD "{}"
    match c.generate with
    | .err e => (w, .err e)
    | .ok strategy =>
        ({ w with table := putItem campaign_id "channel_strategy" strategy w.table },
         .ok ⟨campaign_id, strategy⟩)

/-- `agent5_code` (Evaluator): reads `campaign_plan`, `content_samples`
and `channel_strategy` (defaulting to `''`), invokes the model, stores the
evaluation under step `evaluation`, then publishes a success summary
(`"Campaign {id} planning complete. Summary: {evaluation[:200]}..."`,
subject `Campaign Plan Complete`).  Its `except` branch publishes
`"Campaign {id} failed at evaluation step: {e}"` (subject
`Campaign Plan Failed`) and re-raises; this catches both a generation
failure and a failure of the success-path publish itself.  The
except-branch publish is modelled as succeeding (were it to fail, the
handler still raises). -/
def agent5 : AgentFn := fun ev c w =>
  match ev.campaign_id with
  | none => (w, .err noCidErr)
  | some campaign_id =>
    let _plan := (w.table campaign_id "campaign_plan").getD ""
    let _content := (w.table campaign_id "content_samples").getD ""
    let _strategy := (w.table campaign_id "channel_strategy").getD ""
    match c.generate with
    | .err e =>
        (publish ⟨"Campaign Plan Failed",
           "Campaign " ++ campaign_id ++ " failed at evaluation step: " ++ e.Cause⟩ w,
         .err e)
    | .ok evaluation =>
      let w1 := { w with table := putItem campaign_id "evaluation" evaluation w.table }
      let summary := evaluation.take 200
      match c.snsPublish with
      | .err e =>
          (publish ⟨"Campaign Plan Failed",
             "Campaign " ++ campaign_id ++ " failed at evaluation step: " ++ e.Cause⟩ w1,
           .err e)
      | .ok _ =>
          (publish ⟨"Campaign Plan Complete",
             "Campaign " ++ campaign_id ++ " planning complete. Summary: " ++ summary ++ "..."⟩ w1,
           .ok ⟨campaign_id, evaluation⟩)

/-! ## The state machine (Workflow Engine) -/

/-- The `ErrorEquals` list of every agent state's `Retry` block. -/
def retryList : List String :=
  ["Lambda.ServiceException", "Lambda.AWSLambdaException", "Lambda.SdkClientException"]

/-- Whether the `Retry` block applies to an error. -/
def retryable (e : ErrInfo) : Bool := retryList.contains e.Error

/-- `IntervalSeconds` of the Retry block. -/
def intervalSeconds : Nat := 2

/-- `MaxAttempts` of the Retry block: the maximum number of retries after
the initial invocation. -/
def maxAttempts : Nat := 3

/-- Wait before re-invoking after attempt `attemptNo` failed
(`BackoffRate 2.0`): `IntervalSeconds * 2 ^ (attemptNo - 1)`. -/
def backoffWait (attemptNo : Nat) : Nat := intervalSeconds * 2 ^ (attemptNo - 1)

/-- One recorded invocation: which agent state, which attempt (1-based),
and `none` on success / `some e` when the invocation raised `e`. -/
structure Att where
  agent : Nat
  attempt : Nat
  result : Option ErrInfo
deriving DecidableEq, Repr

/-- Trace of one agent state including its retries: final world, the
invocations made, the backoff waits taken, and the state's outcome. -/
structure StepTrace where
  world : World
  atts : List Att
  waits : List Nat
  result : Outcome AgentRet

/-- Run one `Agent{i}Step` Task state: invoke, and on an error matched by
`ErrorEquals` retry with exponential backoff while retries remain
(structural recursion on `retriesLeft`).  Any error not in `ErrorEquals`,
or exhaustion, yields the error to the `Catch`. -/
def runWithRetry (i : Nat) (a : AgentFn) (caps : Nat → Caps) (ev : Event) :
    Nat → Nat → World → StepTrace
  | attemptNo, 0, w =>
    match a ev (caps attemptNo) w with
    | (wr, .ok ret) => ⟨wr, [⟨i, attemptNo, none⟩], [], .ok ret⟩
    | (wr, .err e) => ⟨wr, [⟨i, attemptNo, some e⟩], [], .err e⟩
  | attemptNo, n + 1, w =>
    match a ev (caps attemptNo) w with
    | (wr, .ok ret) => ⟨wr, [⟨i, attemptNo, none⟩], [], .ok ret⟩
    | (wr, .err e) =>
      if retryable e then
        let t := runWithRetry i a caps ev (attemptNo + 1) n wr
        ⟨t.world, ⟨i, attemptNo, some e⟩ :: t.atts, backoffWait attemptNo :: t.waits, t.result⟩
      else ⟨wr, [⟨i, attemptNo, some e⟩], [], .err e⟩

/-- Terminal outcome of one execution: reached `NotifySuccess` and its
publish went through; or an agent state's error was caught and
`FailureNotify` published (the failure terminal, recording which agent
index failed and with what error); or a notify state's own publish raised,
failing the whole execution (those states have no Retry/Catch). -/
inductive RunResult where
  | succeeded
  | caught (failedIdx : Nat) (e : ErrInfo)
  | notifyCrashed (e : ErrInfo)
deriving DecidableEq, Repr

/-- The `NotifySuccess` state's publish:
`States.Format('Campaign {} completed.', $.campaign_id)`. -/
def successPub (cid : String) : Pub :=
  ⟨"Campaign Success", "Campaign " ++ cid ++ " completed."⟩

/-- The `FailureNotify` state's publish:
`States.Format('Campaign {} failed: {}', $.campaign_id, $.error.Error)` —
note it formats the caught error's `Error` name, not its `Cause`. -/
def failurePub (cid : String) (e : ErrInfo) : Pub :=
  ⟨"Campaign Failed", "Campaign " ++ cid ++ " failed: " ++ e.Error⟩

/-- The `start_execution` input:
`{"campaign_id": …, "brief_bucket": …, "brief_key": …}`. -/
structure ExecInput where
  campaign_id : String
  brief_bucket : String
  brief_key : String
deriving DecidableEq, Repr

/-- The JSON document flowing between states: the execution input at the
start, thereafter the previous Task's Lambda return (a Task's result
replaces its input; no `ResultPath` is set on the agent states). -/
inductive StateData where
  | input (i : ExecInput)
  | output (r : AgentRet)
deriving DecidableEq, Repr

/-- `$.campaign_id` of the current state data. -/
def StateData.cid : StateData → String
  | .input i => i.campaign_id
  | .output r => r.campaign_id

/-- The event built by `Parameters {"campaign_id.$": "$.campaign_id"}`:
only `campaign_id` is passed; `brief_bucket`, `brief_key` and `brief`
never reach any Lambda. -/
def mkEvent (d : StateData) : Event :=
  { campaign_id := some d.cid, brief_bucket := none, brief_key := none, brief := none }

/-- Trace of a whole execution. -/
structure RunTrace where
  world : World
  atts : List Att
  waits : List Nat
  result : RunResult

/-- Run the chain of agent Task states starting at index `i`, then the
`NotifySuccess` state; a caught error goes to `FailureNotify` (its
`ResultPath $.error` leaves the failing state's input intact, so the
notify formats that input's `$.campaign_id`).  `succPubOutcome` /
`failPubOutcome` are the outcomes of the notify states' own `sns:publish`
calls, which have no Retry/Catch: an error there fails the execution. -/
def runChain (capsFor : Nat → Nat → Caps) (succPubOutcome failPubOutcome : Outcome Unit) :
    List AgentFn → Nat → StateData → World → RunTrace
  | [], _, d, w =>
    match succPubOutcome with
    | .ok _ => ⟨publish (successPub d.cid) w, [], [], .succeeded⟩
    | .err e => ⟨w, [], [], .notifyCrashed e⟩
  | a :: rest, i, d, w =>
    let t := runWithRetry i a (capsFor i) (mkEvent d) 1 maxAttempts w
    match t.result with
    | .ok ret =>
      let tr := runChain capsFor succPubOutcome failPubOutcome rest (i + 1) (.output ret) t.world
      ⟨tr.world, t.atts ++ tr.atts, t.waits ++ tr.waits, tr.result⟩
    | .err e =>
      match failPubOutcome with
      | .ok _ => ⟨publish (failurePub d.cid e) t.world, t.atts, t.waits, .caught i e⟩
      | .err e2 => ⟨t.world, t.atts, t.waits, .notifyCrashed e2⟩

/-- The deployed agent list (`CampaignAgent0` … `CampaignAgent5`). -/
def theAgents : List AgentFn := [agent0, agent1, agent2, agent3, agent4, agent5]

/-- One execution of `CampaignPlannerWorkflow` from `StartAt: Agent0Step`. -/
def runWorkflow (capsFor : Nat → Nat → Caps) (succPubOutcome failPubOutcome : Outcome Unit)
    (inp : ExecInput) (w0 : World) : RunTrace :=
  runChain capsFor succPubOutcome failPubOutcome theAgents 0 (.input inp) w0

/-- The step name each agent writes its DynamoDB record under. -/
def stepName : Nat → String
  | 0 => "input_extracted"
  | 1 => "business_context"
  | 2 => "campaign_plan"
  | 3 => "content_samples"
  | 4 => "channel_strategy"
  | _ => "evaluation"

/-- Capabilities where every external call succeeds. -/
def okCaps : Caps :=
  { s3getBrief := .ok ⟨some "CAMPAIGN123"⟩
  , generate := .ok "generated"
  , kendra := .ok "insight"
  , s3putAsset := .ok ()
  , snsPublish := .ok () }

def goodCaps : Nat → Nat → Caps := fun _ _ => okCaps

/-- The notebook's test input (`§2 Running`, with the dummy brief). -/
def inp0 : ExecInput := ⟨"CAMPAIGN123", "briefs-bucket", "sample_brief_genz.json"⟩

/-- `needle` occurs as a contiguous substring of `hay`. -/
def containsStr (hay needle : String) : Prop :=
  needle.toList <:+: hay.toList

instance (hay needle : String) : Decidable (containsStr hay needle) := by
  unfold containsStr
  exact inferInstance

/-! ## Concrete scenarios used as witnesses and counterexamples -/

/-- An invocation-layer error matched by the Retry block. -/
def transErr : ErrInfo := ⟨"Lambda.ServiceException", "service busy"⟩

/-- Every attempt of every agent fails with `transErr`. -/
def transCaps : Nat → Nat → Caps :=
  fun _ _ => { okCaps with generate := .err transErr }

/-- A fatal (non-retryable) error raised inside the evaluator. -/
def evalFatal : ErrInfo := ⟨"ValueError", "invalid evaluation prompt"⟩

/-- Agents 0-4 fully succeed; agent 5's generation call raises `e`. -/
def fatal5Caps (e : ErrInfo) : Nat → Nat → Caps :=
  fun i _ => if i = 5 then { okCaps with generate := .err e } else okCaps

def c6Caps : Nat → Nat → Caps := fatal5Caps evalFatal

/-- An error raised by a notify state's own `sns:publish`. -/
def snsCrash : ErrInfo := ⟨"SNS.ServiceException", "publish rejected"⟩

/-- An error raised by agent 3's asset write to S3. -/
def s3Err : ErrInfo := ⟨"S3.AccessDenied", "asset write denied"⟩

/-- The DynamoDB table contents after agents 0-4 have each succeeded once
with `goodCaps` (entity id `UNKNOWN`, see C9). -/
def tbl5 : String → String → Option String :=
  putItem "UNKNOWN" "channel_strategy" "generated"
    (putItem "UNKNOWN" "content_samples" "generated"
      (putItem "UNKNOWN" "campaign_plan" "generated"
        (putItem "UNKNOWN" "business_context" "generated"
          (putItem "UNKNOWN" "input_extracted" "generated" emptyWorld.table))))

/-- The assets bucket after agent 3's S3 write in that same run. -/
def ast5 : String → Option String :=
  fun k => if k = "UNKNOWN" ++ "_content.txt" then some "generated" else emptyWorld.assets k

/-- The world just before agent 5 runs in that same run. -/
def w5c6 : World := ⟨tbl5, ast5, []⟩

/-- The table after a fully successful run (agent 5's record added). -/
def tbl6 : String → String → Option String :=
  putItem "UNKNOWN" "evaluation" "generated" tbl5

/-! ## Helper lemmas: one agent state with its Retry block -/

theorem rt_agent (i : Nat) (a : AgentFn) (caps : Nat → Caps) (ev : Event) :
    ∀ (r n : Nat) (w : World) (x : Att),
      x ∈ (runWithRetry i a caps ev n r w).atts → x.agent = i := by
  intro r
  induction r with
  | zero =>
    intro n w x hx
    rcases h : a ev (caps n) w with ⟨wr, res⟩
    rcases res with ret | e <;> simp [runWithRetry, h] at hx <;> simp [hx]
  | succ m ih =>
    intro n w x hx
    rcases h : a ev (caps n) w with ⟨wr, res⟩
    rcases res with ret | e
    · simp [runWithRetry, h] at hx; simp [hx]
    · by_cases hr : retryable e
      · simp [runWithRetry, h, hr] at hx
        rcases hx with hx | hx
        · simp [hx]
        · exact ih (n + 1) wr x hx
      · simp [runWithRetry, h, hr] at hx; simp [hx]

theorem rt_ne_nil (i : Nat) (a : AgentFn) (caps : Nat → Caps) (ev : Event) :
    ∀ (r n : Nat) (w : World), (runWithRetry i a caps ev n r w).atts ≠ [] := by
  intro r
  induction r with
  | zero =>
    intro n w
    rcases h : a ev (caps n) w with ⟨wr, res⟩
    rcases res with ret | e <;> simp [runWithRetry, h]
  | succ m ih =>
    intro n w
    rcases h : a ev (caps n) w with ⟨wr, res⟩
    rcases res with ret | e
    · simp [runWithRetry, h]
    · by_cases hr : retryable e <;> simp [runWithRetry, h, hr]

theorem rt_attempt_lb (i : Nat) (a : AgentFn) (caps : Nat → Caps) (ev : Event) :
    ∀ (r n : Nat) (w : World) (x : Att),
      x ∈ (runWithRetry i a caps ev n r w).atts → n ≤ x.attempt := by
  intro r
  induction r with
  | zero =>
    intro n w x hx
    rcases h : a ev (caps n) w with ⟨wr, res⟩
    rcases res with ret | e <;> simp [runWithRetry, h] at hx <;> simp [hx]
  | succ m ih =>
    intro n w x hx
    rcases h : a ev (caps n) w with ⟨wr, res⟩
    rcases res with ret | e
    · simp [runWithRetry, h] at hx; simp [hx]
    · by_cases hr : retryable e
      · simp [runWithRetry, h, hr] at hx
        rcases hx with hx | hx
        · simp [hx]
        · exact Nat.le_of_succ_le (ih (n + 1) wr x hx)
      · simp [runWithRetry, h, hr] at hx; simp [hx]

theorem rt_trans (i : Nat) (a : AgentFn) (caps : Nat → Caps) (ev : Event) :
    ∀ (r n : Nat) (w : World) (x y : Att),
      x ∈ (runWithRetry i a caps ev n r w).atts →
      y ∈ (runWithRetry i a caps ev n r w).atts →
      x.attempt < y.attempt →
      ∃ e, x.result = some e ∧ retryable e = true := by
  intro r
  induction r with
  | zero =>
    intro n w x y hx hy hlt
    rcases h : a ev (caps n) w with ⟨wr, res⟩
    rcases res with ret | e <;>
      simp [runWithRetry, h] at hx hy <;>
      · subst hx; subst hy; omega
  | succ m ih =>
    intro n w x y hx hy hlt
    rcases h : a ev (caps n) w with ⟨wr, res⟩
    rcases res with ret | e
    · simp [runWithRetry, h] at hx hy; subst hx; subst hy; omega
    · by_cases hr : retryable e
      · simp [runWithRetry, h, hr] at hx hy
        rcases hx with hx | hx
        · exact ⟨e, by simp [hx], hr⟩
        · rcases hy with hy | hy
          · have := rt_attempt_lb i a caps ev m (n + 1) wr x hx
            subst hy; simp at hlt; omega
          · exact ih (n + 1) wr x y hx hy hlt
      · simp [runWithRetry, h, hr] at hx hy; subst hx; subst hy; omega

theorem rt_ok_all_trans (i : Nat) (a : AgentFn) (caps : Nat → Caps) (ev : Event) :
    ∀ (r n : Nat) (w : World) (ret : AgentRet) (x : Att) (e : ErrInfo),
      (runWithRetry i a caps ev n r w).result = .ok ret →
      x ∈ (runWithRetry i a caps ev n r w).atts →
      x.result = some e → retryable e = true := by
  intro r
  induction r with
  | zero =>
    intro n w ret x e hres hx hxe
    rcases h : a ev (caps n) w with ⟨wr, res⟩
    rcases res with r0 | e0
    · simp [runWithRetry, h] at hx
      subst hx; simp at hxe
    · simp [runWithRetry, h] at hres
  | succ m ih =>
    intro n w ret x e hres hx hxe
    rcases h : a ev (caps n) w with ⟨wr, res⟩
    rcases res with r0 | e0
    · simp [runWithRetry, h] at hx
      subst hx; simp at hxe
    · by_cases hr : retryable e0
      · simp [runWithRetry, h, hr] at hres hx
        rcases hx with hx | hx
        · subst hx; simp at hxe; subst hxe; exact hr
        · exact ih (n + 1) wr ret x e hres hx hxe
      · simp [runWithRetry, h, hr] at hres

theorem rt_fatal (i : Nat) (a : AgentFn) (caps : Nat → Caps) (ev : Event) :
    ∀ (r n : Nat) (w : World) (x : Att) (e : ErrInfo),
      x ∈ (runWithRetry i a caps ev n r w).atts →
      x.result = some e → retryable e = false →
      (runWithRetry i a caps ev n r w).result = .err e := by
  intro r
  induction r with
  | zero =>
    intro n w x e hx hxe hfat
    rcases h : a ev (caps n) w with ⟨wr, res⟩
    rcases res with r0 | e0
    · simp [runWithRetry, h] at hx; subst hx; simp at hxe
    · simp [runWithRetry, h] at hx ⊢
      subst hx; simp at hxe; subst hxe; rfl
  | succ m ih =>
    intro n w x e hx hxe hfat
    rcases h : a ev (caps n) w with ⟨wr, res⟩
    rcases res with r0 | e0
    · simp [runWithRetry, h] at hx; subst hx; simp at hxe
    · by_cases hr : retryable e0
      · simp [runWithRetry, h, hr] at hx ⊢
        rcases hx with hx | hx
        · subst hx; simp at hxe; subst hxe; simp [hr] at hfat
        · exact ih (n + 1) wr x e hx hxe hfat
      · simp [runWithRetry, h, hr] at hx ⊢
        subst hx; simp at hxe; subst hxe; rfl

/-- If the first attempt succeeds, the state finishes after one
invocation with no waits. -/
theorem rt_ok_first (i : Nat) (a : AgentFn) (caps : Nat → Caps) (ev : Event)
    (r : Nat) (w wr : World) (ret : AgentRet)
    (ha : a ev (caps 1) w = (wr, .ok ret)) :
    runWithRetry i a caps ev 1 r w = ⟨wr, [⟨i, 1, none⟩], [], .ok ret⟩ := by
  cases r <;> simp [runWithRetry, ha]

/-- If the first attempt raises an error the Retry block does not match,
the state finishes after one invocation, handing the error to the Catch. -/
theorem rt_fatal_first (i : Nat) (a : AgentFn) (caps : Nat → Caps) (ev : Event)
    (r : Nat) (w wr : World) (e : ErrInfo)
    (ha : a ev (caps 1) w = (wr, .err e)) (hfat : retryable e = false) :
    runWithRetry i a caps ev 1 r w = ⟨wr, [⟨i, 1, some e⟩], [], .err e⟩ := by
  cases r <;> simp [runWithRetry, ha, hfat]

/-- If every attempt raises the same error and the Retry block matches it,
the state makes `retriesLeft + 1` invocations with the exponential-backoff
waits between them, then hands the error to the Catch. -/
theorem rt_allfail_const (i : Nat) (a : AgentFn) (caps : Nat → Caps) (ev : Event)
    (e : ErrInfo) (hre : retryable e = true) :
    ∀ (r n : Nat) (w : World),
      (∀ t w2, (a ev (caps t) w2).2 = .err e) →
      (runWithRetry i a caps ev n r w).atts.map Att.attempt = List.range' n (r + 1) ∧
      (runWithRetry i a caps ev n r w).waits = (List.range' n r).map backoffWait ∧
      (runWithRetry i a caps ev n r w).result = .err e := by
  intro r
  induction r with
  | zero =>
    intro n w hall
    rcases h : a ev (caps n) w with ⟨wr, res⟩
    have := hall n w
    rw [h] at this; simp at this; subst this
    simp [runWithRetry, h, List.range']
  | succ m ih =>
    intro n w hall
    rcases h : a ev (caps n) w with ⟨wr, res⟩
    have := hall n w
    rw [h] at this; simp at this; subst this
    have hm := ih (n + 1) wr hall
    simp [runWithRetry, h, hre, List.range'] at hm ⊢
    exact ⟨hm.1, hm.2.1, hm.2.2⟩

/-- As `rt_allfail_const` but the error may differ between attempts:
the attempt count and waits are forced, and the state ends with some
transient error handed to the Catch. -/
theorem rt_allfail (i : Nat) (a : AgentFn) (caps : Nat → Caps) (ev : Event) :
    ∀ (r n : Nat) (w : World),
      (∀ t w2, ∃ e, (a ev (caps t) w2).2 = .err e ∧ retryable e = true) →
      (runWithRetry i a caps ev n r w).atts.map Att.attempt = List.range' n (r + 1) ∧
      (runWithRetry i a caps ev n r w).waits = (List.range' n r).map backoffWait ∧
      ∃ e, (runWithRetry i a caps ev n r w).result = .err e ∧ retryable e = true := by
  intro r
  induction r with
  | zero =>
    intro n w hall
    rcases hall n w with ⟨e, he, hre⟩
    rcases h : a ev (caps n) w with ⟨wr, res⟩
    rw [h] at he; simp at he; subst he
    simp [runWithRetry, h, List.range']
    exact hre
  | succ m ih =>
    intro n w hall
    rcases hall n w with ⟨e, he, hre⟩
    rcases h : a ev (caps n) w with ⟨wr, res⟩
    rw [h] at he; simp at he; subst he
    have hm := ih (n + 1) wr hall
    simp [runWithRetry, h, hre, List.range'] at hm ⊢
    exact ⟨hm.1, hm.2.1, hm.2.2⟩

/-! ## Helper lemmas: the whole chain of agent states -/

theorem chain_agent_lb (capsFor : Nat → Nat → Caps) (sp fp : Outcome Unit) :
    ∀ (agents : List AgentFn) (i : Nat) (d : StateData) (w : World) (x : Att),
      x ∈ (runChain capsFor sp fp agents i d w).atts → i ≤ x.agent := by
  intro agents
  induction agents with
  | nil =>
    intro i d w x hx
    rcases sp with u | e <;> simp [runChain] at hx
  | cons a rest ih =>
    intro i d w x hx
    rcases hres : (runWithRetry i a (capsFor i) (mkEvent d) 1 maxAttempts w).result with ret | e
    · simp [runChain, hres] at hx
      rcases hx with hx | hx
      · exact le_of_eq (rt_agent i a (capsFor i) (mkEvent d) maxAttempts 1 w x hx).symm
      · exact Nat.le_of_succ_le (ih (i + 1) _ _ x hx)
    · rcases fp with u | e2 <;> simp [runChain, hres] at hx <;>
        exact le_of_eq (rt_agent i a (capsFor i) (mkEvent d) maxAttempts 1 w x hx).symm

theorem chain_agent_ub (capsFor : Nat → Nat → Caps) (sp fp : Outcome Unit) :
    ∀ (agents : List AgentFn) (i : Nat) (d : StateData) (w : World) (x : Att),
      x ∈ (runChain capsFor sp fp agents i d w).atts → x.agent < i + agents.length := by
  intro agents
  induction agents with
  | nil =>
    intro i d w x hx
    rcases sp with u | e <;> simp [runChain] at hx
  | cons a rest ih =>
    intro i d w x hx
    rcases hres : (runWithRetry i a (capsFor i) (mkEvent d) 1 maxAttempts w).result with ret | e
    · simp [runChain, hres] at hx
      rcases hx with hx | hx
      · have := rt_agent i a (capsFor i) (mkEvent d) maxAttempts 1 w x hx
        simp only [List.length_cons]
        omega
      · have := ih (i + 1) _ _ x hx
        simp only [List.length_cons]
        omega
    · rcases fp with u | e2 <;> simp [runChain, hres] at hx <;>
        · have := rt_agent i a (capsFor i) (mkEvent d) maxAttempts 1 w x hx
          simp only [List.length_cons]
          omega

theorem chain_sorted (capsFor : Nat → Nat → Caps) (sp fp : Outcome Unit) :
    ∀ (agents : List AgentFn) (i : Nat) (d : StateData) (w : World),
      ((runChain capsFor sp fp agents i d w).atts.map Att.agent).Pairwise (· ≤ ·) := by
  intro agents
  induction agents with
  | nil =>
    intro i d w
    rcases sp with u | e <;> simp [runChain]
  | cons a rest ih =>
    intro i d w
    have hblock : ∀ (w2 : World),
        ((runWithRetry i a (capsFor i) (mkEvent d) 1 maxAttempts w2).atts.map Att.agent).Pairwise
          (· ≤ ·) := by
      intro w2
      refine List.pairwise_map.mpr (List.pairwise_of_forall_mem_list ?_)
      intro x hx y hy
      rw [rt_agent i a (capsFor i) (mkEvent d) maxAttempts 1 w2 x hx,
        rt_agent i a (capsFor i) (mkEvent d) maxAttempts 1 w2 y hy]
    rcases hres : (runWithRetry i a (capsFor i) (mkEvent d) 1 maxAttempts w).result with ret | e
    · simp only [runChain, hres, List.map_append]
      refine List.pairwise_append.mpr ⟨hblock w, ih (i + 1) _ _, ?_⟩
      intro p hp q hq
      simp only [List.mem_map] at hp hq
      rcases hp with ⟨x, hx, rfl⟩
      rcases hq with ⟨y, hy, rfl⟩
      rw [rt_agent i a (capsFor i) (mkEvent d) maxAttempts 1 w x hx]
      exact Nat.le_of_succ_le (chain_agent_lb capsFor sp fp rest (i + 1) _ _ y hy)
    · rcases fp with u | e2 <;> simp only [runChain, hres] <;> exact hblock w

theorem chain_cover (capsFor : Nat → Nat → Caps) (sp fp : Outcome Unit) :
    ∀ (agents : List AgentFn) (i : Nat) (d : StateData) (w : World),
      (runChain capsFor sp fp agents i d w).result = .succeeded →
      ∀ j, i ≤ j → j < i + agents.length →
        ∃ x ∈ (runChain capsFor sp fp agents i d w).atts, x.agent = j := by
  intro agents
  induction agents with
  | nil =>
    intro i d w hsucc j hij hj
    simp at hj; omega
  | cons a rest ih =>
    intro i d w hsucc j hij hj
    rcases hres : (runWithRetry i a (capsFor i) (mkEvent d) 1 maxAttempts w).result with ret | e
    · rcases Nat.eq_or_lt_of_le hij with rfl | hlt
      · rcases List.exists_mem_of_ne_nil _
          (rt_ne_nil i a (capsFor i) (mkEvent d) maxAttempts 1 w) with ⟨x, hx⟩
        refine ⟨x, ?_, rt_agent i a (capsFor i) (mkEvent d) maxAttempts 1 w x hx⟩
        simp [runChain, hres]
        exact Or.inl hx
      · simp only [runChain, hres] at hsucc ⊢
        have hj2 : j < (i + 1) + rest.length := by simp at hj ⊢; omega
        rcases ih (i + 1) (.output ret) _ hsucc j hlt hj2 with ⟨x, hx, hxa⟩
        exact ⟨x, by simp; exact Or.inr hx, hxa⟩
    · exfalso
      rcases fp with u | e2 <;> simp [runChain, hres] at hsucc

theorem chain_trans (capsFor : Nat → Nat → Caps) (sp fp : Outcome Unit) :
    ∀ (agents : List AgentFn) (i : Nat) (d : StateData) (w : World) (x y : Att),
      x ∈ (runChain capsFor sp fp agents i d w).atts →
      y ∈ (runChain capsFor sp fp agents i d w).atts →
      x.agent = y.agent → x.attempt < y.attempt →
      ∃ e, x.result = some e ∧ retryable e = true := by
  intro agents
  induction agents with
  | nil =>
    intro i d w x y hx hy hag hlt
    rcases sp with u | e <;> simp [runChain] at hx
  | cons a rest ih =>
    intro i d w x y hx hy hag hlt
    rcases hres : (runWithRetry i a (capsFor i) (mkEvent d) 1 maxAttempts w).result with ret | e
    · simp [runChain, hres] at hx hy
      rcases hx with hx | hx <;> rcases hy with hy | hy
      · exact rt_trans i a (capsFor i) (mkEvent d) maxAttempts 1 w x y hx hy hlt
      · exfalso
        have h1 := rt_agent i a (capsFor i) (mkEvent d) maxAttempts 1 w x hx
        have h2 := chain_agent_lb capsFor sp fp rest (i + 1) _ _ y hy
        omega
      · exfalso
        have h1 := rt_agent i a (capsFor i) (mkEvent d) maxAttempts 1 w y hy
        have h2 := chain_agent_lb capsFor sp fp rest (i + 1) _ _ x hx
        omega
      · exact ih (i + 1) _ _ x y hx hy hag hlt
    · rcases fp with u | e2 <;> simp [runChain, hres] at hx hy <;>
        exact rt_trans i a (capsFor i) (mkEvent d) maxAttempts 1 w x y hx hy hlt

theorem chain_fatal (capsFor : Nat → Nat → Caps) (sp : Outcome Unit) :
    ∀ (agents : List AgentFn) (i : Nat) (d : StateData) (w : World) (x : Att) (e : ErrInfo),
      x ∈ (runChain capsFor sp (.ok ()) agents i d w).atts →
      x.result = some e → retryable e = false →
      (runChain capsFor sp (.ok ()) agents i d w).result = .caught x.agent e ∧
      ∀ y ∈ (runChain capsFor sp (.ok ()) agents i d w).atts, y.agent ≤ x.agent := by
  intro agents
  induction agents with
  | nil =>
    intro i d w x e hx hxe hfat
    rcases sp with u | e2 <;> simp [runChain] at hx
  | cons a rest ih =>
    intro i d w x e hx hxe hfat
    rcases hres : (runWithRetry i a (capsFor i) (mkEvent d) 1 maxAttempts w).result with ret | e0
    · simp only [runChain, hres] at hx ⊢
      simp at hx
      rcases hx with hx | hx
      · exfalso
        have := rt_ok_all_trans i a (capsFor i) (mkEvent d) maxAttempts 1 w ret x e hres hx hxe
        simp [this] at hfat
      · rcases ih (i + 1) (.output ret) _ x e hx hxe hfat with ⟨h1, h2⟩
        refine ⟨h1, ?_⟩
        intro y hy
        simp at hy
        rcases hy with hy | hy
        · have hyi := rt_agent i a (capsFor i) (mkEvent d) maxAttempts 1 w y hy
          have hxi := chain_agent_lb capsFor sp (.ok ()) rest (i + 1) _ _ x hx
          omega
        · exact h2 y hy
    · simp only [runChain, hres] at hx ⊢
      have hfr := rt_fatal i a (capsFor i) (mkEvent d) maxAttempts 1 w x e hx hxe hfat
      rw [hres] at hfr
      have he0 : e0 = e := by simpa using hfr
      subst he0
      have hxi := rt_agent i a (capsFor i) (mkEvent d) maxAttempts 1 w x hx
      constructor
      · simp [hxi]
      · intro y hy
        have := rt_agent i a (capsFor i) (mkEvent d) maxAttempts 1 w y hy
        omega

/-! ## Helper lemmas: counting engine-level notifications -/

/-- Whether a publish is one of the state machine's own notify states
(`NotifySuccess` / `FailureNotify`), as opposed to a publish issued from
inside an agent Lambda (`agent5_code` uses the subjects
`Campaign Plan Complete` / `Campaign Plan Failed`). -/
def isEnginePub (p : Pub) : Bool :=
  p.subject == "Campaign Success" || p.subject == "Campaign Failed"

/-- An agent whose own publishes are never engine-level ones. -/
def AgentTame (a : AgentFn) : Prop :=
  ∀ ev c w, ((a ev c w).1.sns).filter isEnginePub = w.sns.filter isEnginePub

theorem tame_agent0 : AgentTame agent0 := by
  intro ev c w
  rcases ev with ⟨cid, bb, bk, br⟩
  rcases hs : c.s3getBrief with brf | e0 <;>
    rcases hg : c.generate with t | e1 <;>
    rcases bb with _ | b <;> rcases bk with _ | k <;>
    simp [agent0, agent0core, hs, hg]

theorem tame_agent1 : AgentTame agent1 := by
  intro ev c w
  rcases hcid : ev.campaign_id with _ | cid <;>
    rcases hg : c.generate with t | e1 <;>
    simp [agent1, hcid, hg]

theorem tame_agent2 : AgentTame agent2 := by
  intro ev c w
  rcases hcid : ev.campaign_id with _ | cid <;>
    rcases hg : c.generate with t | e1 <;>
    simp [agent2, hcid, hg]

theorem tame_agent3 : AgentTame agent3 := by
  intro ev c w
  rcases hcid : ev.campaign_id with _ | cid <;>
    rcases hg : c.generate with t | e1 <;>
    rcases hp : c.s3putAsset with u | e2 <;>
    simp [agent3, hcid, hg, hp]

theorem tame_agent4 : AgentTame agent4 := by
  intro ev c w
  rcases hcid : ev.campaign_id with _ | cid <;>
    rcases hg : c.generate with t | e1 <;>
    simp [agent4, hcid, hg]

theorem tame_agent5 : AgentTame agent5 := by
  intro ev c w
  rcases hcid : ev.campaign_id with _ | cid <;>
    rcases hg : c.generate with t | e1 <;>
    rcases hp : c.snsPublish with u | e2 <;>
    simp [agent5, hcid, hg, hp, publish, isEnginePub, List.filter_append]

theorem tame_theAgents : ∀ a ∈ theAgents, AgentTame a := by
  intro a ha
  simp [theAgents] at ha
  rcases ha with rfl | rfl | rfl | rfl | rfl | rfl
  · exact tame_agent0
  · exact tame_agent1
  · exact tame_agent2
  · exact tame_agent3
  · exact tame_agent4
  · exact tame_agent5

theorem rt_tame (i : Nat) (a : AgentFn) (hta : AgentTame a) (caps : Nat → Caps) (ev : Event) :
    ∀ (r n : Nat) (w : World),
      ((runWithRetry i a caps ev n r w).world.sns).filter isEnginePub
        = w.sns.filter isEnginePub := by
  intro r
  induction r with
  | zero =>
    intro n w
    rcases h : a ev (caps n) w with ⟨wr, res⟩
    have hw : wr.sns.filter isEnginePub = w.sns.filter isEnginePub := by
      have := hta ev (caps n) w; rw [h] at this; exact this
    rcases res with ret | e <;> simp [runWithRetry, h, hw]
  | succ m ih =>
    intro n w
    rcases h : a ev (caps n) w with ⟨wr, res⟩
    have hw : wr.sns.filter isEnginePub = w.sns.filter isEnginePub := by
      have := hta ev (caps n) w; rw [h] at this; exact this
    rcases res with ret | e
    · simp [runWithRetry, h, hw]
    · by_cases hr : retryable e
      · simp [runWithRetry, h, hr]
        rw [ih (n + 1) wr, hw]
      · simp [runWithRetry, h, hr, hw]

theorem chain_engine_count (capsFor : Nat → Nat → Caps) :
    ∀ (agents : List AgentFn), (∀ a ∈ agents, AgentTame a) →
      ∀ (i : Nat) (d : StateData) (w : World),
        ((runChain capsFor (.ok ()) (.ok ()) agents i d w).world.sns.filter isEnginePub).length
          = (w.sns.filter isEnginePub).length + 1 := by
  intro agents
  induction agents with
  | nil =>
    intro _ i d w
    simp [runChain, publish, successPub, List.filter_append, isEnginePub]
  | cons a rest ih =>
    intro hta i d w
    have ht := rt_tame i a (hta a (by simp)) (capsFor i) (mkEvent d) maxAttempts 1 w
    rcases hres : (runWithRetry i a (capsFor i) (mkEvent d) 1 maxAttempts w).result with ret | e
    · simp only [runChain, hres]
      rw [ih (fun b hb => hta b (by simp [hb])) (i + 1) (.output ret) _, ht]
    · simp only [runChain, hres]
      simp [publish, failurePub, List.filter_append, isEnginePub, ht]

/-! ## Helper lemmas: the Step Store key discipline -/

theorem putFold_getLast (cid step : String) :
    ∀ (ds : List String) (t : String → String → Option String) (h : ds ≠ []),
      (ds.foldl (fun acc d => putItem cid step d acc) t) cid step = some (ds.getLast h) := by
  intro ds
  induction ds with
  | nil => intro t h; simp at h
  | cons d tl ih =>
    intro t h
    rcases tl with _ | ⟨d2, tl2⟩
    · simp [putItem]
    · rw [List.foldl_cons, ih (putItem cid step d t) (by simp)]
      simp [List.getLast_cons]

theorem putFold_other (cid step : String) :
    ∀ (ds : List String) (t : String → String → Option String) (c s : String),
      ¬(c = cid ∧ s = step) →
      (ds.foldl (fun acc d => putItem cid step d acc) t) c s = t c s := by
  intro ds
  induction ds with
  | nil => intro t c s h; rfl
  | cons d tl ih =>
    intro t c s h
    rw [List.foldl_cons, ih _ c s h]
    simp [putItem, h]

/-! ## Helper lemmas: substring containment -/

theorem containsStr_suffix (a b : String) : containsStr (a ++ b) b := by
  refine ⟨a.toList, [], ?_⟩
  simp [String.toList]

theorem containsStr_mono_left (a b n : String) (h : containsStr a n) :
    containsStr (a ++ b) n := by
  rcases h with ⟨s, t, hst⟩
  refine ⟨s, t ++ b.toList, ?_⟩
  have he : (a ++ b).toList = a.toList ++ b.toList := by simp [String.toList]
  rw [he, ← hst]
  simp

/-! ## Claim C1 — terminal notification exactly once -/

/-- Claim C1 (counterexample): the claim says exactly one SNS publish
occurs per Execution.  On the code, a fully successful execution makes
TWO publishes: agent 5's own success publish (`Campaign Plan Complete`)
and the `NotifySuccess` state's publish — so the count is 2, not 1. -/
theorem C1_counterexample :
    (runWorkflow goodCaps (.ok ()) (.ok ()) inp0 emptyWorld).world.sns.length = 2 ∧
    ¬ (runWorkflow goodCaps (.ok ()) (.ok ()) inp0 emptyWorld).world.sns.length = 1 :=
  ⟨rfl, by decide⟩

/-- Claim C1 (amended): exactly one ENGINE-level notification — a publish
from the state machine's `NotifySuccess` or `FailureNotify` states — occurs
per Execution, for every capability behaviour, provided the notify
publishes themselves succeed; agent 5 may additionally publish its own
agent-level notification, so the total SNS publish count can be two. -/
theorem C1_amended (capsFor : Nat → Nat → Caps) (inp : ExecInput) (w0 : World) :
    ((runWorkflow capsFor (.ok ()) (.ok ()) inp w0).world.sns.filter isEnginePub).length
      = (w0.sns.filter isEnginePub).length + 1 :=
  chain_engine_count capsFor theAgents tame_theAgents 0 (.input inp) w0

/-- Claim C1 (amended, witness): the engine-level count is 1 on the
notebook's test input with all capabilities succeeding. -/
theorem C1_amended_witness :
    ((runWorkflow goodCaps (.ok ()) (.ok ()) inp0 emptyWorld).world.sns.filter
        isEnginePub).length
      = ((emptyWorld.sns.filter isEnginePub).length) + 1 :=
  C1_amended goodCaps inp0 emptyWorld

/-! ## Claim C2 — ordering of agent states -/

/-- Claim C2 (confirmed): for any configured agent list, a run that
reaches the Success terminal visits the agent states in non-decreasing
index order, covers every index `0..N-1`, invokes no index ≥ N, and an
agent is invoked more than once only when its earlier attempt failed with
an error matched by the Retry block (a transient failure of that same
agent). -/
theorem C2_ordering (agents : List AgentFn) (capsFor : Nat → Nat → Caps)
    (sp fp : Outcome Unit) (inp : ExecInput) (w0 : World)
    (hsucc : (runChain capsFor sp fp agents 0 (.input inp) w0).result = .succeeded) :
    (((runChain capsFor sp fp agents 0 (.input inp) w0).atts.map Att.agent).Pairwise (· ≤ ·)) ∧
    (∀ j < agents.length,
      ∃ x ∈ (runChain capsFor sp fp agents 0 (.input inp) w0).atts, x.agent = j) ∧
    (∀ x ∈ (runChain capsFor sp fp agents 0 (.input inp) w0).atts, x.agent < agents.length) ∧
    (∀ x ∈ (runChain capsFor sp fp agents 0 (.input inp) w0).atts,
     ∀ y ∈ (runChain capsFor sp fp agents 0 (.input inp) w0).atts,
       x.agent = y.agent → x.attempt < y.attempt →
       ∃ e, x.result = some e ∧ retryable e = true) := by
  refine ⟨chain_sorted capsFor sp fp agents 0 _ _, ?_, ?_, ?_⟩
  · intro j hj
    exact chain_cover capsFor sp fp agents 0 _ _ hsucc j (Nat.zero_le j) (by omega)
  · intro x hx
    have := chain_agent_ub capsFor sp fp agents 0 _ _ x hx
    omega
  · intro x hx y hy hag hlt
    exact chain_trans capsFor sp fp agents 0 _ _ x y hx hy hag hlt

/-- Claim C2 (witness): the ordering property instantiated on the deployed
six-agent list with all capabilities succeeding. -/
theorem C2_ordering_witness :
    (((runChain goodCaps (.ok ()) (.ok ()) theAgents 0 (.input inp0) emptyWorld).atts.map
        Att.agent).Pairwise (· ≤ ·)) ∧
    (∀ j < theAgents.length,
      ∃ x ∈ (runChain goodCaps (.ok ()) (.ok ()) theAgents 0 (.input inp0) emptyWorld).atts,
        x.agent = j) ∧
    (∀ x ∈ (runChain goodCaps (.ok ()) (.ok ()) theAgents 0 (.input inp0) emptyWorld).atts,
      x.agent < theAgents.length) ∧
    (∀ x ∈ (runChain goodCaps (.ok ()) (.ok ()) theAgents 0 (.input inp0) emptyWorld).atts,
     ∀ y ∈ (runChain goodCaps (.ok ()) (.ok ()) theAgents 0 (.input inp0) emptyWorld).atts,
       x.agent = y.agent → x.attempt < y.attempt →
       ∃ e, x.result = some e ∧ retryable e = true) :=
  C2_ordering theAgents goodCaps (.ok ()) (.ok ()) inp0 emptyWorld rfl

/-! ## Claim C3 — retry exhaustion -/

/-- Claim C3 (counterexample): the claim says a transiently-failing agent
is attempted exactly 3 times.  On the code, `MaxAttempts 3` bounds the
*retries*, so an always-transiently-failing agent is attempted 4 times
(the initial invocation plus 3 retries), with waits 2, 4, 8 between
attempts, before the Catch routes to failure. -/
theorem C3_counterexample :
    (runWorkflow transCaps (.ok ()) (.ok ()) inp0 emptyWorld).atts.length = 4 ∧
    ¬ (runWorkflow transCaps (.ok ()) (.ok ()) inp0 emptyWorld).atts.length = 3 ∧
    (runWorkflow transCaps (.ok ()) (.ok ()) inp0 emptyWorld).waits = [2, 4, 8] ∧
    (runWorkflow transCaps (.ok ()) (.ok ()) inp0 emptyWorld).result = .caught 0 transErr :=
  ⟨rfl, by decide, rfl, rfl⟩

/-- Claim C3 (amended): an agent step that fails with a Retry-matched error
on every attempt is attempted exactly 4 times (the initial invocation plus
`MaxAttempts = 3` retries), waiting `interval * backoff_rate ^ k` (2, 4, 8)
between successive attempts, before its error is handed to the Catch; a
workflow whose first agent behaves so ends at the failure terminal. -/
theorem C3_amended :
    (∀ (i : Nat) (a : AgentFn) (caps : Nat → Caps) (ev : Event) (w : World),
       (∀ t w2, ∃ e, (a ev (caps t) w2).2 = .err e ∧ retryable e = true) →
       (runWithRetry i a caps ev 1 maxAttempts w).atts.map Att.attempt = [1, 2, 3, 4] ∧
       (runWithRetry i a caps ev 1 maxAttempts w).atts.length = 4 ∧
       (runWithRetry i a caps ev 1 maxAttempts w).waits = [2, 4, 8] ∧
       ∃ e, (runWithRetry i a caps ev 1 maxAttempts w).result = .err e ∧ retryable e = true) ∧
    (∀ (capsFor : Nat → Nat → Caps) (inp : ExecInput) (w0 : World) (e : ErrInfo),
       retryable e = true →
       (∀ t, (capsFor 0 t).generate = .err e) →
       (runWorkflow capsFor (.ok ()) (.ok ()) inp w0).result = .caught 0 e ∧
       (runWorkflow capsFor (.ok ()) (.ok ()) inp w0).atts.map Att.attempt = [1, 2, 3, 4] ∧
       (runWorkflow capsFor (.ok ()) (.ok ()) inp w0).waits = [2, 4, 8]) := by
  constructor
  · intro i a caps ev w hall
    have h := rt_allfail i a caps ev maxAttempts 1 w hall
    have h1 : (runWithRetry i a caps ev 1 maxAttempts w).atts.map Att.attempt = [1, 2, 3, 4] := by
      rw [h.1]; rfl
    refine ⟨h1, ?_, ?_, h.2.2⟩
    · have := congrArg List.length h1
      simpa using this
    · rw [h.2.1]; rfl
  · intro capsFor inp w0 e hre hgen
    have hall : ∀ t w2, (agent0 (mkEvent (.input inp)) (capsFor 0 t) w2).2 = .err e := by
      intro t w2
      simp [mkEvent, agent0, agent0core, hgen t]
    have hb := rt_allfail_const 0 agent0 (capsFor 0) (mkEvent (.input inp)) e hre maxAttempts 1 w0 hall
    have h1 : runWorkflow capsFor (.ok ()) (.ok ()) inp w0
        = ⟨publish (failurePub inp.campaign_id e)
             (runWithRetry 0 agent0 (capsFor 0) (mkEvent (.input inp)) 1 maxAttempts w0).world,
           (runWithRetry 0 agent0 (capsFor 0) (mkEvent (.input inp)) 1 maxAttempts w0).atts,
           (runWithRetry 0 agent0 (capsFor 0) (mkEvent (.input inp)) 1 maxAttempts w0).waits,
           .caught 0 e⟩ := by
      simp only [runWorkflow, theAgents, runChain, hb.2.2, StateData.cid]
    rw [h1]
    refine ⟨rfl, ?_, ?_⟩
    · show (runWithRetry 0 agent0 (capsFor 0) (mkEvent (.input inp)) 1
          maxAttempts w0).atts.map Att.attempt = [1, 2, 3, 4]
      rw [hb.1]; rfl
    · show (runWithRetry 0 agent0 (capsFor 0) (mkEvent (.input inp)) 1
          maxAttempts w0).waits = [2, 4, 8]
      rw [hb.2.1]; rfl

/-- Claim C3 (amended, witness): the 4-attempt behaviour on the concrete
always-throttled scenario. -/
theorem C3_amended_witness :
    (runWorkflow transCaps (.ok ()) (.ok ()) inp0 emptyWorld).result = .caught 0 transErr ∧
    (runWorkflow transCaps (.ok ()) (.ok ()) inp0 emptyWorld).atts.map Att.attempt
      = [1, 2, 3, 4] ∧
    (runWorkflow transCaps (.ok ()) (.ok ()) inp0 emptyWorld).waits = [2, 4, 8] :=
  C3_amended.2 transCaps inp0 emptyWorld transErr (by decide) (fun _ => rfl)

/-! ## Claim C4 — fatal short-circuit -/

/-- Claim C4 (confirmed): if any invocation of agent `i` raises an error
the Retry block does not match (a fatal failure), the Execution ends at
the failure terminal recording agent `i` as the failed step
(`current_step = i`), and no agent with a larger index is ever invoked. -/
theorem C4_fatal_short_circuit (agents : List AgentFn) (capsFor : Nat → Nat → Caps)
    (sp : Outcome Unit) (inp : ExecInput) (w0 : World) (x : Att) (e : ErrInfo)
    (hx : x ∈ (runChain capsFor sp (.ok ()) agents 0 (.input inp) w0).atts)
    (he : x.result = some e) (hfat : retryable e = false) :
    (runChain capsFor sp (.ok ()) agents 0 (.input inp) w0).result = .caught x.agent e ∧
    ∀ y ∈ (runChain capsFor sp (.ok ()) agents 0 (.input inp) w0).atts, y.agent ≤ x.agent :=
  chain_fatal capsFor sp agents 0 (.input inp) w0 x e hx he hfat

/-- Claim C4 (witness): instantiated on the run where the evaluator raises
a fatal `ValueError` on its first attempt. -/
theorem C4_witness :
    (runChain c6Caps (.ok ()) (.ok ()) theAgents 0 (.input inp0) emptyWorld).result
      = .caught 5 evalFatal ∧
    ∀ y ∈ (runChain c6Caps (.ok ()) (.ok ()) theAgents 0 (.input inp0) emptyWorld).atts,
      y.agent ≤ 5 :=
  C4_fatal_short_circuit theAgents c6Caps (.ok ()) inp0 emptyWorld
    ⟨5, 1, some evalFatal⟩ evalFatal (by decide) rfl (by decide)

/-! ## Claim C5 — idempotent step records -/

/-- Claim C5 (confirmed): any number of `put_item` writes to the same
`(entity_id, step_name)` composite key leave exactly one record for that
key — the last write — and leave every other key untouched; and each of
the six agents only ever writes its own step's record, never another
step's. -/
theorem C5_idempotent_step_records :
    (∀ (cid step : String) (ds : List String) (t : String → String → Option String)
       (h : ds ≠ []),
       (ds.foldl (fun acc d => putItem cid step d acc) t) cid step = some (ds.getLast h) ∧
       ∀ c s, ¬(c = cid ∧ s = step) →
         (ds.foldl (fun acc d => putItem cid step d acc) t) c s = t c s) ∧
    (∀ (ev : Event) (c : Caps) (w : World) (cs s : String),
       s ≠ "input_extracted" → (agent0 ev c w).1.table cs s = w.table cs s) ∧
    (∀ (ev : Event) (c : Caps) (w : World) (cs s : String),
       s ≠ "business_context" → (agent1 ev c w).1.table cs s = w.table cs s) ∧
    (∀ (ev : Event) (c : Caps) (w : World) (cs s : String),
       s ≠ "campaign_plan" → (agent2 ev c w).1.table cs s = w.table cs s) ∧
    (∀ (ev : Event) (c : Caps) (w : World) (cs s : String),
       s ≠ "content_samples" → (agent3 ev c w).1.table cs s = w.table cs s) ∧
    (∀ (ev : Event) (c : Caps) (w : World) (cs s : String),
       s ≠ "channel_strategy" → (agent4 ev c w).1.table cs s = w.table cs s) ∧
    (∀ (ev : Event) (c : Caps) (w : World) (cs s : String),
       s ≠ "evaluation" → (agent5 ev c w).1.table cs s = w.table cs s) := by
  refine ⟨?_, ?_, ?_, ?_, ?_, ?_, ?_⟩
  · intro cid step ds t h
    exact ⟨putFold_getLast cid step ds t h, fun c s hcs => putFold_other cid step ds t c s hcs⟩
  · intro ev c w cs s hs
    rcases ev with ⟨cid, bb, bk, br⟩
    rcases hsb : c.s3getBrief with brf | e0 <;>
      rcases hg : c.generate with t0 | e1 <;>
      rcases bb with _ | b <;> rcases bk with _ | k <;>
      simp [agent0, agent0core, hsb, hg, putItem, hs]
  · intro ev c w cs s hs
    rcases hcid : ev.campaign_id with _ | cid <;>
      rcases hg : c.generate with t0 | e1 <;>
      simp [agent1, hcid, hg, putItem, hs]
  · intro ev c w cs s hs
    rcases hcid : ev.campaign_id with _ | cid <;>
      rcases hg : c.generate with t0 | e1 <;>
      simp [agent2, hcid, hg, putItem, hs]
  · intro ev c w cs s hs
    rcases hcid : ev.campaign_id with _ | cid <;>
      rcases hg : c.generate with t0 | e1 <;>
      rcases hp : c.s3putAsset with u | e2 <;>
      simp [agent3, hcid, hg, hp, putItem, hs]
  · intro ev c w cs s hs
    rcases hcid : ev.campaign_id with _ | cid <;>
      rcases hg : c.generate with t0 | e1 <;>
      simp [agent4, hcid, hg, putItem, hs]
  · intro ev c w cs s hs
    rcases hcid : ev.campaign_id with _ | cid <;>
      rcases hg : c.generate with t0 | e1 <;>
      rcases hp : c.snsPublish with u | e2 <;>
      simp [agent5, hcid, hg, hp, publish, putItem, hs]

/-- Claim C5 (witness): two successive writes to
`("X", "content_samples")` leave exactly the last record there and leave
other keys untouched; agent 3 does not touch the `input_extracted`
record. -/
theorem C5_witness :
    (["draft", "final"].foldl (fun acc d => putItem "X" "content_samples" d acc)
        emptyWorld.table) "X" "content_samples" = some "final" ∧
    (["draft", "final"].foldl (fun acc d => putItem "X" "content_samples" d acc)
        emptyWorld.table) "X" "input_extracted" = emptyWorld.table "X" "input_extracted" ∧
    (agent3 ⟨some "X", none, none, none⟩ okCaps emptyWorld).1.table "X" "input_extracted"
      = emptyWorld.table "X" "input_extracted" :=
  ⟨(C5_idempotent_step_records.1 "X" "content_samples" ["draft", "final"]
      emptyWorld.table (by decide)).1,
   (C5_idempotent_step_records.1 "X" "content_samples" ["draft", "final"]
      emptyWorld.table (by decide)).2 "X" "input_extracted" (by decide),
   C5_idempotent_step_records.2.2.2.2.1 ⟨some "X", none, none, none⟩ okCaps emptyWorld
     "X" "input_extracted" (by decide)⟩

/-! ## Claim C6 — failure scenario at the evaluator -/

/-- Claim C6 (counterexample): the claim says the failure notification
contains the fatal error's human-readable text and never an internal
error code.  On the code, `FailureNotify` formats `$.error.Error` — the
error name — so when the evaluator raises
`ValueError("invalid evaluation prompt")` the engine failure message is
`"Campaign UNKNOWN failed: ValueError"`: it contains the error code
`ValueError` and does not contain the human-readable text. -/
theorem C6_counterexample :
    (runWorkflow c6Caps (.ok ()) (.ok ()) inp0 emptyWorld).result = .caught 5 evalFatal ∧
    (runWorkflow c6Caps (.ok ()) (.ok ()) inp0 emptyWorld).world.sns.getLast? =
      some ⟨"Campaign Failed", "Campaign UNKNOWN failed: ValueError"⟩ ∧
    containsStr "Campaign UNKNOWN failed: ValueError" "ValueError" ∧
    ¬ containsStr "Campaign UNKNOWN failed: ValueError" "invalid evaluation prompt" :=
  ⟨rfl, rfl, by decide, by decide⟩

/-- Claim C6 (amended): when the last agent's generation call fails
fatally on its first attempt after agents 0-4 succeeded, the Execution
ends at the failure terminal with the evaluator (index 5) as the failed
step, the Step Store has no `evaluation` record, and two failure
notifications are published: the evaluator's own agent-level message,
which contains the run's entity id (`UNKNOWN`, per C9) and the error's
human-readable text, and the `FailureNotify` state's message, which
contains the entity id and the error's name (an error code) rather than
its human-readable text. -/
theorem C6_amended (e : ErrInfo) (inp : ExecInput) (hfat : retryable e = false) :
    (runWorkflow (fatal5Caps e) (.ok ()) (.ok ()) inp emptyWorld).result = .caught 5 e ∧
    (runWorkflow (fatal5Caps e) (.ok ()) (.ok ()) inp emptyWorld).world.table
      "UNKNOWN" "evaluation" = none ∧
    (runWorkflow (fatal5Caps e) (.ok ()) (.ok ()) inp emptyWorld).world.sns =
      [⟨"Campaign Plan Failed",
        "Campaign " ++ "UNKNOWN" ++ " failed at evaluation step: " ++ e.Cause⟩,
       failurePub "UNKNOWN" e] ∧
    containsStr ("Campaign " ++ "UNKNOWN" ++ " failed at evaluation step: " ++ e.Cause)
      e.Cause ∧
    containsStr ("Campaign " ++ "UNKNOWN" ++ " failed at evaluation step: " ++ e.Cause)
      "UNKNOWN" ∧
    containsStr (failurePub "UNKNOWN" e).message e.Error ∧
    containsStr (failurePub "UNKNOWN" e).message "UNKNOWN" := by
  have hb5 : runWithRetry 5 agent5 (fatal5Caps e 5)
        (mkEvent (.output ⟨"UNKNOWN", "generated"⟩)) 1 maxAttempts w5c6
      = ⟨publish ⟨"Campaign Plan Failed",
           "Campaign " ++ "UNKNOWN" ++ " failed at evaluation step: " ++ e.Cause⟩ w5c6,
         [⟨5, 1, some e⟩], [], .err e⟩ :=
    rt_fatal_first 5 agent5 (fatal5Caps e 5) (mkEvent (.output ⟨"UNKNOWN", "generated"⟩))
      maxAttempts w5c6 _ e rfl hfat
  have hR : runChain (fatal5Caps e) (.ok ()) (.ok ()) [agent5] 5
        (.output ⟨"UNKNOWN", "generated"⟩) w5c6
      = ⟨publish (failurePub "UNKNOWN" e)
           (publish ⟨"Campaign Plan Failed",
              "Campaign " ++ "UNKNOWN" ++ " failed at evaluation step: " ++ e.Cause⟩ w5c6),
         [⟨5, 1, some e⟩], [], .caught 5 e⟩ := by
    simp only [runChain, hb5, StateData.cid]
  have hmain : runWorkflow (fatal5Caps e) (.ok ()) (.ok ()) inp emptyWorld
      = ⟨(runChain (fatal5Caps e) (.ok ()) (.ok ()) [agent5] 5
            (.output ⟨"UNKNOWN", "generated"⟩) w5c6).world,
         ⟨0, 1, none⟩ :: ⟨1, 1, none⟩ :: ⟨2, 1, none⟩ :: ⟨3, 1, none⟩ :: ⟨4, 1, none⟩ ::
           (runChain (fatal5Caps e) (.ok ()) (.ok ()) [agent5] 5
             (.output ⟨"UNKNOWN", "generated"⟩) w5c6).atts,
         (runChain (fatal5Caps e) (.ok ()) (.ok ()) [agent5] 5
           (.output ⟨"UNKNOWN", "generated"⟩) w5c6).waits,
         (runChain (fatal5Caps e) (.ok ()) (.ok ()) [agent5] 5
           (.output ⟨"UNKNOWN", "generated"⟩) w5c6).result⟩ := rfl
  rw [hmain, hR]
  refine ⟨rfl, ?_, rfl, containsStr_suffix _ _, ?_, containsStr_suffix _ _, ?_⟩
  · show tbl5 "UNKNOWN" "evaluation" = none
    decide
  · exact containsStr_mono_left _ _ _ (by decide)
  · exact containsStr_mono_left _ _ _ (by decide)

/-- Claim C6 (amended, witness): the amended failure scenario at the
concrete fatal `ValueError`. -/
theorem C6_amended_witness :
    (runWorkflow (fatal5Caps evalFatal) (.ok ()) (.ok ()) inp0 emptyWorld).result
      = .caught 5 evalFatal ∧
    (runWorkflow (fatal5Caps evalFatal) (.ok ()) (.ok ()) inp0 emptyWorld).world.table
      "UNKNOWN" "evaluation" = none ∧
    (runWorkflow (fatal5Caps evalFatal) (.ok ()) (.ok ()) inp0 emptyWorld).world.sns =
      [⟨"Campaign Plan Failed",
        "Campaign " ++ "UNKNOWN" ++ " failed at evaluation step: " ++ evalFatal.Cause⟩,
       failurePub "UNKNOWN" evalFatal] ∧
    containsStr
      ("Campaign " ++ "UNKNOWN" ++ " failed at evaluation step: " ++ evalFatal.Cause)
      evalFatal.Cause ∧
    containsStr
      ("Campaign " ++ "UNKNOWN" ++ " failed at evaluation step: " ++ evalFatal.Cause)
      "UNKNOWN" ∧
    containsStr (failurePub "UNKNOWN" evalFatal).message evalFatal.Error ∧
    containsStr (failurePub "UNKNOWN" evalFatal).message "UNKNOWN" :=
  C6_amended evalFatal inp0 (by decide)

/-! ## Claim C7 — notification failure and terminal status -/

/-- Claim C7 (counterexample): the claim says a run whose agents all
succeeded still ends Succeeded even if the success notification publish
fails.  On the code, `NotifySuccess` has no Retry/Catch, so a publish
failure there fails the whole execution: the run does not end at the
success terminal. -/
theorem C7_counterexample :
    (runWorkflow goodCaps (.err snsCrash) (.ok ()) inp0 emptyWorld).result
      = .notifyCrashed snsCrash ∧
    ¬ (runWorkflow goodCaps (.err snsCrash) (.ok ()) inp0 emptyWorld).result = .succeeded :=
  ⟨rfl, by decide⟩

set_option maxRecDepth 8000 in
/-- Claim C7 (amended): a failure of the `NotifySuccess` publish does not
roll back the agents' work — the Step Store still holds all six records,
identical to the fully successful run, and agent 5's own success publish
stands — but it DOES change the execution outcome: the run ends as a
failed execution (`notifyCrashed`), not Succeeded, because the notify
states have no Retry or Catch. -/
theorem C7_amended (e : ErrInfo) (inp : ExecInput) :
    (runWorkflow goodCaps (.err e) (.ok ()) inp emptyWorld).result = .notifyCrashed e ∧
    ¬ (runWorkflow goodCaps (.err e) (.ok ()) inp emptyWorld).result = .succeeded ∧
    (runWorkflow goodCaps (.err e) (.ok ()) inp emptyWorld).world.table
      = (runWorkflow goodCaps (.ok ()) (.ok ()) inp emptyWorld).world.table ∧
    (∀ j : Nat, (runWorkflow goodCaps (.err e) (.ok ()) inp emptyWorld).world.table
        "UNKNOWN" (stepName j) = some "generated") ∧
    (runWorkflow goodCaps (.err e) (.ok ()) inp emptyWorld).world.sns =
      [⟨"Campaign Plan Complete", "Campaign UNKNOWN planning complete. Summary: generated..."⟩] := by
  refine ⟨rfl, ?_, rfl, ?_, rfl⟩
  · show RunResult.notifyCrashed e ≠ RunResult.succeeded
    simp
  · intro j
    rcases j with _ | _ | _ | _ | _ | j <;> rfl

/-- Claim C7 (amended, witness): instantiated at a concrete SNS error. -/
theorem C7_amended_witness :
    (runWorkflow goodCaps (.err snsCrash) (.ok ()) inp0 emptyWorld).result
      = .notifyCrashed snsCrash ∧
    ¬ (runWorkflow goodCaps (.err snsCrash) (.ok ()) inp0 emptyWorld).result = .succeeded ∧
    (runWorkflow goodCaps (.err snsCrash) (.ok ()) inp0 emptyWorld).world.table
      = (runWorkflow goodCaps (.ok ()) (.ok ()) inp0 emptyWorld).world.table ∧
    (∀ j : Nat, (runWorkflow goodCaps (.err snsCrash) (.ok ()) inp0 emptyWorld).world.table
        "UNKNOWN" (stepName j) = some "generated") ∧
    (runWorkflow goodCaps (.err snsCrash) (.ok ()) inp0 emptyWorld).world.sns =
      [⟨"Campaign Plan Complete", "Campaign UNKNOWN planning complete. Summary: generated..."⟩] :=
  C7_amended snsCrash inp0

/-! ## Claim C8 — missing prior-step record -/

/-- Claim C8 (counterexample): the claim says a missing required
prior-step record is classified fatal and routes immediately to Failure.
On the code, `agent1_code` defaults `brief_data` to `{}` when the
`input_extracted` item is missing and proceeds: the invocation SUCCEEDS
(returning its interpretation) and writes its own record. -/
theorem C8_counterexample :
    emptyWorld.table "CAMPAIGN123" "input_extracted" = none ∧
    (agent1 ⟨some "CAMPAIGN123", none, none, none⟩ okCaps emptyWorld).2
      = .ok ⟨"CAMPAIGN123", "generated"⟩ ∧
    (agent1 ⟨some "CAMPAIGN123", none, none, none⟩ okCaps emptyWorld).1.table
      "CAMPAIGN123" "business_context" = some "generated" :=
  ⟨rfl, rfl, by decide⟩

/-- Claim C8 (amended): an agent whose required prior-step record is
missing from the State Store proceeds with an empty default in its place
and completes normally, writing its own step record — no failure is
raised and no transition to Failure occurs (shown for the business
interpreter and the campaign planner, the two steps the claim's sources
cite). -/
theorem C8_amended :
    (∀ (cid txt : String) (c : Caps) (w : World) (ev : Event),
       ev.campaign_id = some cid →
       w.table cid "input_extracted" = none →
       c.generate = .ok txt →
       (agent1 ev c w).2 = .ok ⟨cid, txt⟩ ∧
       (agent1 ev c w).1.table cid "business_context" = some txt) ∧
    (∀ (cid txt : String) (c : Caps) (w : World) (ev : Event),
       ev.campaign_id = some cid →
       w.table cid "business_context" = none →
       w.table cid "input_extracted" = none →
       c.generate = .ok txt →
       (agent2 ev c w).2 = .ok ⟨cid, txt⟩ ∧
       (agent2 ev c w).1.table cid "campaign_plan" = some txt) := by
  constructor
  · intro cid txt c w ev hcid hmiss hgen
    constructor
    · simp [agent1, hcid, hgen]
    · simp [agent1, hcid, hgen, putItem]
  · intro cid txt c w ev hcid hm1 hm2 hgen
    constructor
    · simp [agent2, hcid, hgen]
    · simp [agent2, hcid, hgen, putItem]

/-- Claim C8 (amended, witness): the interpreter on an empty store. -/
theorem C8_amended_witness :
    (agent1 ⟨some "X", none, none, none⟩ okCaps emptyWorld).2 = .ok ⟨"X", "generated"⟩ ∧
    (agent1 ⟨some "X", none, none, none⟩ okCaps emptyWorld).1.table "X" "business_context"
      = some "generated" :=
  C8_amended.1 "X" "generated" okCaps emptyWorld ⟨some "X", none, none, none⟩ rfl rfl rfl

/-! ## Claim C9 — only campaign_id is passed; entity id becomes UNKNOWN -/

set_option maxRecDepth 8000 in
/-- Claim C9 (confirmed): the state machine's `Parameters` pass only
`campaign_id` to each Lambda, so agent 0 never receives
`brief_bucket`/`brief_key`, falls back to the empty brief, derives the
entity id `UNKNOWN`, and — for ANY submitted execution input — the whole
successful run reads and writes every Step Record under `UNKNOWN` (and no
other entity id), and both notifications name `UNKNOWN` instead of the
submitted campaign id. -/
theorem C9_unknown_propagation (inp : ExecInput) :
    ((mkEvent (.input inp)).brief_bucket = none ∧ (mkEvent (.input inp)).brief_key = none) ∧
    (runWorkflow goodCaps (.ok ()) (.ok ()) inp emptyWorld).result = .succeeded ∧
    (∀ j : Nat, (runWorkflow goodCaps (.ok ()) (.ok ()) inp emptyWorld).world.table
        "UNKNOWN" (stepName j) = some "generated") ∧
    (∀ c s, c ≠ "UNKNOWN" →
      (runWorkflow goodCaps (.ok ()) (.ok ()) inp emptyWorld).world.table c s = none) ∧
    (runWorkflow goodCaps (.ok ()) (.ok ()) inp emptyWorld).world.sns =
      [⟨"Campaign Plan Complete", "Campaign UNKNOWN planning complete. Summary: generated..."⟩,
       ⟨"Campaign Success", "Campaign UNKNOWN completed."⟩] := by
  refine ⟨⟨rfl, rfl⟩, rfl, ?_, ?_, rfl⟩
  · intro j
    rcases j with _ | _ | _ | _ | _ | j <;> rfl
  · intro c s hc
    have ht : (runWorkflow goodCaps (.ok ()) (.ok ()) inp emptyWorld).world.table = tbl6 := rfl
    rw [ht]
    simp [tbl6, tbl5, putItem, emptyWorld, hc]

/-- Claim C9 (witness): on the notebook's test input
(`campaign_id = CAMPAIGN123`) the store holds nothing under the submitted
id. -/
theorem C9_witness :
    (runWorkflow goodCaps (.ok ()) (.ok ()) inp0 emptyWorld).world.table
      "CAMPAIGN123" "input_extracted" = none :=
  (C9_unknown_propagation inp0).2.2.2.1 "CAMPAIGN123" "input_extracted" (by decide)

/-! ## Claim C10 — record written before the asset -/

/-- Claim C10 (confirmed): the content generator writes its
`content_samples` record to DynamoDB before the S3 asset write; when the
S3 write fails, the attempt fails (the exception is re-raised) yet the
already-written Step Record is in the store, while the asset bucket and
publish log are untouched. -/
theorem C10_record_before_asset (cid content : String) (e : ErrInfo) (c : Caps) (w : World)
    (ev : Event) (hcid : ev.campaign_id = some cid) (hgen : c.generate = .ok content)
    (hs3 : c.s3putAsset = .err e) :
    (agent3 ev c w).2 = .err e ∧
    (agent3 ev c w).1.table cid "content_samples" = some content ∧
    (∀ k, (agent3 ev c w).1.assets k = w.assets k) ∧
    (agent3 ev c w).1.sns = w.sns := by
  simp [agent3, hcid, hgen, hs3, putItem]

/-- Claim C10 (witness): concrete failed asset write leaving the record. -/
theorem C10_witness :
    (agent3 ⟨some "X", none, none, none⟩ { okCaps with s3putAsset := .err s3Err }
        emptyWorld).2 = .err s3Err ∧
    (agent3 ⟨some "X", none, none, none⟩ { okCaps with s3putAsset := .err s3Err }
        emptyWorld).1.table "X" "content_samples" = some "generated" ∧
    (∀ k, (agent3 ⟨some "X", none, none, none⟩ { okCaps with s3putAsset := .err s3Err }
        emptyWorld).1.assets k = emptyWorld.assets k) ∧
    (agent3 ⟨some "X", none, none, none⟩ { okCaps with s3putAsset := .err s3Err }
        emptyWorld).1.sns = emptyWorld.sns :=
  C10_record_before_asset "X" "generated" s3Err { okCaps with s3putAsset := .err s3Err }
    emptyWorld ⟨some "X", none, none, none⟩ rfl rfl rfl

end Campaign
